import Mathlib

/-!
A shallow embedding of the FBX-glTF-conv command-line front end
(`Cli.cpp`): path arithmetic, the filesystem effects the tool performs,
CLI option resolution (`beecli::readCliArgs`, cxxopts variant), the
buffer-externalization writer (`MyWriter::buffer`), logging-sink
selection and the orchestration in `main`.

Paths are modelled POSIX-style as an absolute-flag plus a list of
components; the filesystem is a list of existing directories together
with an oracle saying which `create_directories` calls fail.  External
effects (the converter, stream writes) are parameters of the embedded
`main`.
-/

/-- POSIX-style test underlying `bee::filesystem::path::is_absolute`:
a path string is absolute exactly when it begins with the separator. -/
def strAbsolute (s : String) : Bool :=
  s.data.head? == some '/'

/-- A parsed filesystem path: an absolute-flag plus its components. -/
structure FsPath where
  absolute : Bool
  components : List String
deriving DecidableEq, Repr

/-- Split a character list at every occurrence of a separator. -/
def splitChars (sep : Char) : List Char → List (List Char)
  | [] => [[]]
  | c :: cs =>
    if c = sep then [] :: splitChars sep cs
    else
      match splitChars sep cs with
      | [] => [[c]]
      | p :: ps => (c :: p) :: ps

/-- Concatenate character lists with a separator between them. -/
def joinChars (sep : Char) : List (List Char) → List Char
  | [] => []
  | [p] => p
  | p :: ps => p ++ sep :: joinChars sep ps

/-- Parse a path string, splitting on the separator (empty pieces,
as produced by duplicate separators, carry no component). -/
def parsePath (s : String) : FsPath :=
  ⟨strAbsolute s, ((splitChars '/' s.data).filter (fun l => !l.isEmpty)).map String.mk⟩

/-- Join path components with the separator. -/
def joinComponents : List String → String
  | [] => ""
  | [c] => c
  | c :: cs => c ++ "/" ++ joinComponents cs

/-- Render a path back to its string form (`path::u8string` and
`path::generic_u8string` coincide in the POSIX model). -/
def FsPath.render (p : FsPath) : String :=
  (if p.absolute then "/" else "") ++ joinComponents p.components

/-- `path::parent_path()`: drop the final component. -/
def FsPath.parent (p : FsPath) : FsPath :=
  ⟨p.absolute, p.components.dropLast⟩

/-- `path::filename()`: the final component. -/
def FsPath.filename (p : FsPath) : String :=
  p.components.getLast?.getD ""

/-- `path::stem()` on a file name: the name up to (not including) the
last period; a name of `.` or `..`, a name with no period, or a name
whose only period is the leading character is its own stem. -/
def stemOfName (f : String) : String :=
  if f = "." ∨ f = ".." then f
  else
    match splitChars '.' f.data with
    | [] => f
    | [_] => f
    | first :: rest =>
      if first = [] ∧ rest.length = 1 then f
      else String.mk (joinChars '.' ((first :: rest).dropLast))

/-- `path::stem()`. -/
def FsPath.stem (p : FsPath) : String :=
  stemOfName p.filename

/-- `path / component` for a single trailing component. -/
def FsPath.push (p : FsPath) (c : String) : FsPath :=
  ⟨p.absolute, p.components ++ [c]⟩

/-- `path::operator/`: an absolute right-hand side replaces the left,
otherwise the components are appended. -/
def FsPath.join (p q : FsPath) : FsPath :=
  if q.absolute then q else ⟨p.absolute, p.components ++ q.components⟩

/-- The path together with every prefix of it (the directories
`create_directories` brings into existence). -/
def FsPath.ancestors (p : FsPath) : List FsPath :=
  (List.range (p.components.length + 1)).map (fun n => ⟨p.absolute, p.components.take n⟩)

/-- Strip the longest common prefix of two component lists
(the `mismatch` step of `path::lexically_relative`). -/
def dropCommon : List String → List String → List String × List String
  | a :: as, b :: bs =>
    if a = b then dropCommon as bs else (a :: as, b :: bs)
  | as, bs => (as, bs)

/-- `self.lexically_relative(base)`: after discarding the common
prefix, one `..` per remaining base component followed by the
remaining components of `self`; `.` when nothing remains.  Paths whose
roots differ yield the empty path. -/
def lexicallyRelative (self base : FsPath) : FsPath :=
  if self.absolute != base.absolute then ⟨false, []⟩
  else
    let r := dropCommon base.components self.components
    if r.1.isEmpty && r.2.isEmpty then ⟨false, ["."]⟩
    else ⟨false, List.replicate r.1.length ".." ++ r.2⟩

/-- `relativeUriBetweenPath` (Cli.cpp): the generic string of
`to_.lexically_relative(from_)`. -/
def relativeUriBetweenPath (from_ to_ : FsPath) : String :=
  (lexicallyRelative to_ from_).render

/-- The filesystem as this front end observes it: the directories in
existence, plus an oracle saying which `create_directories` requests
fail (standing for the OS-level error condition). -/
structure FileSystem where
  dirs : List FsPath := []
  createFails : FsPath → Bool := fun _ => false

/-- `std::filesystem::create_directories`: on success the requested
directory and every intermediate directory exist. -/
def createDirectories (fs : FileSystem) (p : FsPath) : Except Unit FileSystem :=
  if fs.createFails p then Except.error ()
  else Except.ok { fs with dirs := fs.dirs ++ p.ancestors }

/-- Severity levels of `bee::Logger::Level`.  Modelled from the spec:
the level set is declared in `bee/Converter.h`, which is not part of
the visible sources; the spec fixes the order info < warn < error <
fatal. -/
inductive Level
  | info
  | warn
  | error
  | fatal
deriving DecidableEq, Repr

/-- The two logging-sink variants of Cli.cpp. -/
inductive SinkKind
  | console
  | json
deriving DecidableEq, Repr

/-- `bee::ConvertOptions::UnitConversion`. -/
inductive UnitConversion
  | geometryLevel
  | hierarchyLevel
  | disabled
deriving DecidableEq, Repr

/-- `bee::ConvertOptions::PathMode`.  Modelled from the spec: the
enumeration lives in `bee/Converter.h`, outside the visible sources;
only the `copy` member is referenced by this CLI, so one further
member stands in for every other mode. -/
inductive PathMode
  | source
  | copy
deriving DecidableEq, Repr

/-- `bee::TextureResolution` options (field of `ConvertOptions`). -/
structure TextureResolution where
  disabled : Bool := false
  locations : List String := []
deriving DecidableEq, Repr

/-- `bee::ConvertOptions`.  The field defaults are those of the
converter's header, which is outside the visible sources; they are
modelled from the spec (bake rate 30, local-time-span preference true,
unit conversion geometry-level, texture resolution enabled).  The
defaults of `useDataUriForBuffers` and `pathMode` are unspecified, so
they are chosen opposite to what `main` forces, keeping the theorems
about `main` forcing them meaningful. -/
structure ConvertOptions where
  out : String := ""
  fbmDir : String := ""
  noFlipV : Bool := false
  animationBakeRate : Nat := 30
  unitConversion : UnitConversion := UnitConversion.geometryLevel
  textureResolution : TextureResolution := {}
  prefer_local_time_span : Bool := true
  verbose : Bool := false
  useDataUriForBuffers : Bool := true
  pathMode : PathMode := PathMode.source
deriving DecidableEq, Repr

/-- `beecli::CliArgs`. -/
structure CliArgs where
  inputFile : String := ""
  outFile : String := ""
  fbmDir : String := ""
  logFile : Option String := none
  convertOptions : ConvertOptions := {}
deriving DecidableEq, Repr

/-- The raw values cxxopts hands back to `readCliArgs`: for each
option, the parsed value when the option occurred on the command line
(`cliParseResult.count(...) > 0`), `none`/`""` otherwise. -/
structure ParsedOptions where
  inputFile : String := ""
  fbmDir : String := ""
  outFile : String := ""
  logFile : String := ""
  unitConversion : String := ""
  noFlipV : Option Bool := none
  noTextureResolution : Option Bool := none
  preferLocalTimeSpan : Option Bool := none
  animationBakeRate : Option Nat := none
  verbose : Option Bool := none
  textureSearchLocations : List String := []
deriving DecidableEq, Repr

/-- The toggle-copying block of `readCliArgs` (the count-guarded
assignments for `no-flip-v`, `no-texture-resolution`,
`prefer-local-time-span`, `animation-bake-rate` and `verbose`): each
present option overwrites its field of a default `ConvertOptions`. -/
def applyToggles (p : ParsedOptions) : ConvertOptions :=
  let c0 : ConvertOptions := {}
  let c1 := match p.noFlipV with
    | some b => { c0 with noFlipV := b }
    | none => c0
  let c2 := match p.noTextureResolution with
    | some b => { c1 with textureResolution.disabled := b }
    | none => c1
  let c3 := match p.preferLocalTimeSpan with
    | some b => { c2 with prefer_local_time_span := b }
    | none => c2
  let c4 := match p.animationBakeRate with
    | some r => { c3 with animationBakeRate := r }
    | none => c3
  match p.verbose with
  | some b => { c4 with verbose := b }
  | none => c4

/-- The unit-conversion mapping block of `readCliArgs` (lines
586-599): an empty string is skipped; the three recognized strings are
mapped case-sensitively; any other string emits a console warning and
leaves the mode untouched. -/
def applyUnitConversion (s : String) (c : ConvertOptions) :
    ConvertOptions × List String :=
  if s = "" then (c, [])
  else if s = "geometry-level" then
    ({ c with unitConversion := UnitConversion.geometryLevel }, [])
  else if s = "hierarchy-level" then
    ({ c with unitConversion := UnitConversion.hierarchyLevel }, [])
  else if s = "disabled" then
    ({ c with unitConversion := UnitConversion.disabled }, [])
  else (c, ["Unknown unit conversion option: " ++ s])

/-- One texture search location resolved against the input file's
parent directory (lines 615-623): an absolute entry is used verbatim
(`p.u8string()` returns the source string), a relative one is joined
onto the base directory. -/
def resolveTextureLocation (baseDir : FsPath) (s : String) : String :=
  let p := parsePath s
  if p.absolute then s else (baseDir.join p).render

/-- The texture-search-location block of `readCliArgs` (lines
608-624): when the list is non-empty, every entry is resolved against
the input file's parent directory and stored, in order. -/
def finalizeLocations (p : ParsedOptions) (co : ConvertOptions) : ConvertOptions :=
  if p.textureSearchLocations.isEmpty then co
  else
    { co with textureResolution.locations :=
        p.textureSearchLocations.map (resolveTextureLocation (parsePath p.inputFile).parent) }

/-- `beecli::readCliArgs` after the cxxopts parse succeeded (lines
518-626): the count-guarded field copies, the missing-input check, the
unit-conversion mapping, the string copies (the log file is retained
only when non-empty) and the texture-search-location resolution.
Returns the `CliArgs` (or `none` for the missing-input-file early
return) together with the messages written to the error stream. -/
def resolveCliArgs (p : ParsedOptions) : Option CliArgs × List String :=
  if p.inputFile = "" then (none, ["Input file not specified."])
  else
    let r := applyUnitConversion p.unitConversion (applyToggles p)
    (some { inputFile := p.inputFile, outFile := p.outFile, fbmDir := p.fbmDir,
            logFile := if p.logFile = "" then none else some p.logFile,
            convertOptions := finalizeLocations p r.1 }, r.2)

/-- Lines 74-76 of `main`: a non-empty `--fbm-dir` value overrides the
converter's embedded-media directory. -/
def applyFbmDir (c : CliArgs) : CliArgs :=
  if c.fbmDir = "" then c else { c with convertOptions.fbmDir := c.fbmDir }

/-- Lines 78-86 of `main`: when no `--out` was given, derive
`<cwd>/<stem>_glTF/<stem>.gltf` from the input file's stem and create
the intermediate directories (the throwing `create_directories`
overload — a failure escapes `main`); then copy the output file into
the converter options. -/
def resolveOutFile (fs : FileSystem) (cwd : FsPath) (c : CliArgs) :
    Except Unit (CliArgs × FileSystem) :=
  if c.outFile = "" then
    let inputBaseNameNoExt := (parsePath c.inputFile).stem
    let outFilePath := (cwd.push (inputBaseNameNoExt ++ "_glTF")).push
        (inputBaseNameNoExt ++ ".gltf")
    match createDirectories fs outFilePath.parent with
    | Except.error e => Except.error e
    | Except.ok fs' =>
      Except.ok ({ c with outFile := outFilePath.render,
                          convertOptions.out := outFilePath.render }, fs')
  else
    Except.ok ({ c with convertOptions.out := c.outFile }, fs)

/-- Lines 126-128 of `main`: the writer is installed, data-URI
embedding of buffers is switched off and the path mode is pinned to
`copy`, unconditionally. -/
def configureConvert (c : ConvertOptions) : ConvertOptions :=
  { c with useDataUriForBuffers := false, pathMode := PathMode.copy }

/-- Lines 74-128 of `main`: everything between a successful
`readCliArgs` and the construction of the logger. -/
def prepareOptions (fs : FileSystem) (cwd : FsPath) (cli0 : CliArgs) :
    Except Unit (CliArgs × FileSystem) :=
  match resolveOutFile fs cwd (applyFbmDir cli0) with
  | Except.error e => Except.error e
  | Except.ok (cli, fs') =>
    Except.ok ({ cli with convertOptions := configureConvert cli.convertOptions }, fs')

/-- Lines 130-135 of `main`: the sink is the JSON logger exactly when
a log file was requested, the console logger otherwise. -/
def selectSink (logFile : Option String) : SinkKind :=
  match logFile with
  | some _ => SinkKind.json
  | none => SinkKind.console

/-- `MyWriter::buffer` (lines 94-118): name the externalized file
`<outputStem>.bin`, or `<outputStem><index>.bin` when the conversion
externalizes several buffers; create the output directory (the
error-code overload — a failure becomes a thrown `runtime_error`);
write the bytes (`writeOk` stands for the stream's success); return
the URI of the buffer file relative to the output document's
directory. -/
def MyWriter.buffer (outFile : String) (index : Nat) (multi : Bool)
    (fs : FileSystem) (writeOk : Bool) : Except String (FileSystem × String) :=
  let outFilePath := parsePath outFile
  let glTFOutBaseName := outFilePath.stem
  let glTFOutDir := outFilePath.parent
  let bufferOutPath := glTFOutDir.push
      (if multi then glTFOutBaseName ++ toString index ++ ".bin"
       else glTFOutBaseName ++ ".bin")
  match createDirectories fs bufferOutPath.parent with
  | Except.error _ =>
    Except.error ("Failed to create directories for buffer " ++ bufferOutPath.render)
  | Except.ok fs1 =>
    if writeOk then Except.ok (fs1, relativeUriBetweenPath glTFOutDir bufferOutPath)
    else Except.error "failed to write buffer bytes"

/-- What the external `bee::convert` call contributes to one run: the
records it sends through the installed logger, and either a produced
document (abstracted) or the thrown error's message. -/
structure ConvertOutcome where
  logs : List (Level × String) := []
  result : Except String Unit := Except.ok ()

/-- Stands for the implementation-defined `exception::what()` text of
a failed stream or filesystem operation. -/
def ioFailureMessage : String := "iostream failure"

/-- The try-block of `main` (lines 144-156): on a conversion error the
message is logged at fatal level and the exit code becomes 1, the
document unwritten; on success the document is written unless the
output stream fails, which is caught by the same handler.  Returns
(logger records, retval, document written). -/
def convertStep (conv : ConvertOutcome) (docWriteOk : Bool) :
    List (Level × String) × Int × Bool :=
  match conv.result with
  | Except.error msg => (conv.logs ++ [(Level.fatal, msg)], 1, false)
  | Except.ok _ =>
    if docWriteOk then (conv.logs, 0, true)
    else (conv.logs ++ [(Level.fatal, ioFailureMessage)], 1, false)

/-- The observable outcome of one `main` invocation.  `exit` is
`Except.error ()` when an exception escaped `main` (the uncaught
`create_directories` failure of output-path resolution);
`logPersisted` holds the records of a successfully written log file;
`sinkUsed` is the logger variant constructed (when the run got that
far); `loggerRecords` is everything sent through the logger. -/
structure MainResult where
  exit : Except Unit Int
  docWritten : Bool
  sinkUsed : Option SinkKind
  loggerRecords : List (Level × String)
  logPersisted : Option (List (Level × String))
  stderrOut : List String
  fs : FileSystem

/-- An early `return -1` of `main` (normalization or parse failure):
no logger, no document, no log file. -/
def usageExit (msgs : List String) (fs0 : FileSystem) : MainResult :=
  ⟨Except.ok (-1), false, none, [], none, msgs, fs0⟩

/-- Lines 158-172 of `main`: when a log file was requested, create its
parent directories and serialize the buffered records (`st.1`); a
failure there is written to the error stream and forces exit code 1;
without a log file the retval of the conversion stage stands. -/
def persistLog (logFile : Option String) (sink : SinkKind) (fs1 : FileSystem)
    (warns : List String) (st : List (Level × String) × Int × Bool)
    (logWriteOk : Bool) : MainResult :=
  match logFile with
  | none => ⟨Except.ok st.2.1, st.2.2, some sink, st.1, none, warns, fs1⟩
  | some lf =>
    match createDirectories fs1 (parsePath lf).parent with
    | Except.error _ =>
      ⟨Except.ok 1, st.2.2, some sink, st.1, none, warns ++ [ioFailureMessage], fs1⟩
    | Except.ok fs2 =>
      if logWriteOk then
        ⟨Except.ok st.2.1, st.2.2, some sink, st.1, some st.1, warns, fs2⟩
      else
        ⟨Except.ok 1, st.2.2, some sink, st.1, none, warns ++ [ioFailureMessage], fs2⟩

/-- `main` (lines 55-175).  External inputs: whether argument
normalization succeeded (`argsOk`), the parse outcome (`none` for a
cxxopts error or a help request), the filesystem, the current working
directory, the converter's behaviour, and the success of the document
and log streams. -/
def mainRun (argsOk : Bool) (parsed : Option ParsedOptions) (fs0 : FileSystem)
    (cwd : FsPath) (conv : ConvertOutcome) (docWriteOk logWriteOk : Bool) :
    MainResult :=
  if argsOk then
    match parsed with
    | none => usageExit [] fs0
    | some p =>
      match resolveCliArgs p with
      | (none, errs) => usageExit errs fs0
      | (some cli0, warns) =>
        match prepareOptions fs0 cwd cli0 with
        | Except.error _ => ⟨Except.error (), false, none, [], none, warns, fs0⟩
        | Except.ok (cli, fs1) =>
          persistLog cli.logFile (selectSink cli.logFile) fs1 warns
            (convertStep conv docWriteOk) logWriteOk
  else usageExit [] fs0

/-- The captured-failure condition of one run that reached conversion:
the converter threw, or the document stream failed, or (when a log
file was requested) persisting the log failed. -/
def persistFail (logFile : Option String) (fs1 : FileSystem) (logWriteOk : Bool) : Bool :=
  match logFile with
  | none => false
  | some lf => fs1.createFails (parsePath lf).parent || !logWriteOk

/-- Whether an `Except` is the error case. -/
def isErr (e : Except String Unit) : Bool :=
  match e with
  | Except.error _ => true
  | Except.ok _ => false

/-! ### Basic lemmas about the path and filesystem model -/

theorem FsPath.parent_push (p : FsPath) (c : String) : (p.push c).parent = p := by
  cases p
  simp [FsPath.push, FsPath.parent]

theorem dropCommon_self_append (xs t : List String) :
    dropCommon xs (xs ++ t) = ([], t) := by
  induction xs with
  | nil => cases t <;> rfl
  | cons a as ih => simpa [dropCommon] using ih

theorem lexicallyRelative_push (p : FsPath) (c : String) :
    lexicallyRelative (p.push c) p = ⟨false, [c]⟩ := by
  simp [lexicallyRelative, FsPath.push, dropCommon_self_append]

theorem render_singleton (c : String) : FsPath.render ⟨false, [c]⟩ = c := by
  simp [FsPath.render, joinComponents]

theorem strAbsolute_render_true (cs : List String) :
    strAbsolute (FsPath.render ⟨true, cs⟩) = true := by
  have h : (("/" ++ joinComponents cs).data).head? = some '/' := by
    rw [String.data_append]
    rfl
  simp [strAbsolute, FsPath.render, h]

theorem mem_ancestors_self (p : FsPath) : p ∈ p.ancestors := by
  refine List.mem_map.mpr ⟨p.components.length, by simp, ?_⟩
  cases p
  simp

theorem createDirectories_ok_mem (fs fs' : FileSystem) (p : FsPath)
    (h : createDirectories fs p = Except.ok fs') :
    ∀ q ∈ p.ancestors, q ∈ fs'.dirs := by
  unfold createDirectories at h
  split at h
  · cases h
  · cases h
    intro q hq
    exact List.mem_append_right _ hq

theorem applyToggles_unitConversion (p : ParsedOptions) :
    (applyToggles p).unitConversion = UnitConversion.geometryLevel := by
  obtain ⟨i, fd, o, lf, uc, nf, ntr, plts, abr, vb, tsl⟩ := p
  cases nf <;> cases ntr <;> cases plts <;> cases abr <;> cases vb <;> rfl

theorem applyToggles_fbmDir (p : ParsedOptions) : (applyToggles p).fbmDir = "" := by
  obtain ⟨i, fd, o, lf, uc, nf, ntr, plts, abr, vb, tsl⟩ := p
  cases nf <;> cases ntr <;> cases plts <;> cases abr <;> cases vb <;> rfl

theorem applyToggles_locations (p : ParsedOptions) :
    (applyToggles p).textureResolution.locations = [] := by
  obtain ⟨i, fd, o, lf, uc, nf, ntr, plts, abr, vb, tsl⟩ := p
  cases nf <;> cases ntr <;> cases plts <;> cases abr <;> cases vb <;> rfl

theorem applyUnitConversion_fbmDir (s : String) (c : ConvertOptions) :
    (applyUnitConversion s c).1.fbmDir = c.fbmDir := by
  unfold applyUnitConversion
  repeat first | rfl | split

theorem applyUnitConversion_locations (s : String) (c : ConvertOptions) :
    (applyUnitConversion s c).1.textureResolution.locations =
      c.textureResolution.locations := by
  unfold applyUnitConversion
  repeat first | rfl | split

/-! ### Claim theorems -/

/-- Claim C2: when no `--out` path is supplied, the resolved output
file path equals `<cwd>/<stem>_glTF/<stem>.gltf`, where `stem` is the
input file name without its extension; all intermediate directories of
that path are created during resolution, so the output directory
exists afterwards; and if directory creation fails, resolution fails
with a filesystem error. -/
theorem C2_default_output_path (fs : FileSystem) (cwd : FsPath) (c c' : CliArgs)
    (fs' : FileSystem) (hout : c.outFile = "") :
    (resolveOutFile fs cwd c = Except.ok (c', fs') →
      c'.outFile = FsPath.render ⟨cwd.absolute,
          cwd.components ++ [(parsePath c.inputFile).stem ++ "_glTF",
                             (parsePath c.inputFile).stem ++ ".gltf"]⟩ ∧
      c'.convertOptions.out = c'.outFile ∧
      (∀ q ∈ (cwd.push ((parsePath c.inputFile).stem ++ "_glTF")).ancestors,
         q ∈ fs'.dirs)) ∧
    (fs.createFails (cwd.push ((parsePath c.inputFile).stem ++ "_glTF")) = true →
      resolveOutFile fs cwd c = Except.error ()) := by
  unfold resolveOutFile
  rw [hout]
  simp only [if_pos rfl, FsPath.parent_push]
  constructor
  · intro h
    revert h
    cases hcd : createDirectories fs (cwd.push ((parsePath c.inputFile).stem ++ "_glTF")) with
    | error e => intro h; cases h
    | ok fsn =>
      intro h
      cases h
      refine ⟨?_, rfl, ?_⟩
      · simp [FsPath.push]
      · exact createDirectories_ok_mem _ _ _ hcd
  · intro hfail
    simp [createDirectories, hfail]

/-- Claim C2 witness: a concrete run with input `a.fbx`, working
directory `/w` and no `--out`: the resolved path is `/w/a_glTF/a.gltf`,
the directory `/w/a_glTF` exists afterwards, and the same call against
a failing filesystem is a filesystem error. -/
theorem C2_default_output_path_witness :
    resolveOutFile {} ⟨true, ["w"]⟩ { inputFile := "a.fbx" } =
      Except.ok ({ inputFile := "a.fbx", outFile := "/w/a_glTF/a.gltf",
                   convertOptions := { out := "/w/a_glTF/a.gltf" } },
                 { dirs := [⟨true, []⟩, ⟨true, ["w"]⟩, ⟨true, ["w", "a_glTF"]⟩] }) ∧
    "/w/a_glTF/a.gltf" = FsPath.render ⟨true, ["w", "a_glTF", "a.gltf"]⟩ ∧
    (⟨true, ["w", "a_glTF"]⟩ : FsPath) ∈
      ({ dirs := [⟨true, []⟩, ⟨true, ["w"]⟩, ⟨true, ["w", "a_glTF"]⟩] } : FileSystem).dirs ∧
    resolveOutFile { createFails := fun _ => true } ⟨true, ["w"]⟩
      { inputFile := "a.fbx" } = Except.error () := by
  have h := C2_default_output_path {} ⟨true, ["w"]⟩ { inputFile := "a.fbx" }
      { inputFile := "a.fbx", outFile := "/w/a_glTF/a.gltf",
        convertOptions := { out := "/w/a_glTF/a.gltf" } }
      { dirs := [⟨true, []⟩, ⟨true, ["w"]⟩, ⟨true, ["w", "a_glTF"]⟩] } rfl
  have h2 := C2_default_output_path { createFails := fun _ => true } ⟨true, ["w"]⟩
      { inputFile := "a.fbx" }
      { inputFile := "a.fbx", outFile := "/w/a_glTF/a.gltf",
        convertOptions := { out := "/w/a_glTF/a.gltf" } } {} rfl
  refine ⟨rfl, (h.1 rfl).1, ?_, h2.2 rfl⟩
  exact (h.1 rfl).2.2 ⟨true, ["w", "a_glTF"]⟩ (mem_ancestors_self _)

/-- Claim C3: every successful `MyWriter::buffer` call names the
externalized file `<outputBaseName>.bin` when `isMulti` is false and
`<outputBaseName><k>.bin` when it is true with index `k`, and the
returned reference string is the path of that file expressed relative
to the output document's directory — a relative path (absolute flag
false) that joins back onto the output directory to give the written
file. -/
theorem C3_buffer_externalization (outFile : String) (k : Nat) (multi : Bool)
    (fs fs' : FileSystem) (r name : String)
    (hname : name = (if multi then (parsePath outFile).stem ++ toString k ++ ".bin"
                     else (parsePath outFile).stem ++ ".bin"))
    (h : MyWriter.buffer outFile k multi fs true = Except.ok (fs', r)) :
    r = name ∧
    r = (lexicallyRelative ((parsePath outFile).parent.push name)
          (parsePath outFile).parent).render ∧
    (lexicallyRelative ((parsePath outFile).parent.push name)
      (parsePath outFile).parent).absolute = false ∧
    (parsePath outFile).parent.join ⟨false, [name]⟩ =
      (parsePath outFile).parent.push name := by
  simp only [MyWriter.buffer, FsPath.parent_push, createDirectories, if_true] at h
  rw [← hname] at h
  split at h
  · simp at h
  · simp only [Except.ok.injEq] at h
    obtain ⟨h1, h2⟩ := Prod.mk.injEq .. ▸ h
    refine ⟨?_, ?_, ?_, ?_⟩
    · rw [← h2, relativeUriBetweenPath, lexicallyRelative_push, render_singleton]
    · rw [← h2, relativeUriBetweenPath, lexicallyRelative_push]
    · rw [lexicallyRelative_push]
    · simp [FsPath.join, FsPath.push]

/-- Claim C3 witness: a multi-buffer call with index 3 against the
output document `/w/out_glTF/out.gltf` names the buffer `out3.bin`,
and the reference is the relative path resolving back to the written
file. -/
theorem C3_buffer_externalization_witness :
    "out3.bin" = (if true then (parsePath "/w/out_glTF/out.gltf").stem ++ toString 3 ++ ".bin"
                  else (parsePath "/w/out_glTF/out.gltf").stem ++ ".bin") ∧
    "out3.bin" = (lexicallyRelative ((parsePath "/w/out_glTF/out.gltf").parent.push "out3.bin")
        (parsePath "/w/out_glTF/out.gltf").parent).render ∧
    (lexicallyRelative ((parsePath "/w/out_glTF/out.gltf").parent.push "out3.bin")
        (parsePath "/w/out_glTF/out.gltf").parent).absolute = false ∧
    (parsePath "/w/out_glTF/out.gltf").parent.join ⟨false, ["out3.bin"]⟩ =
      (parsePath "/w/out_glTF/out.gltf").parent.push "out3.bin" := by
  have h := C3_buffer_externalization "/w/out_glTF/out.gltf" 3 true {}
      { dirs := [⟨true, []⟩, ⟨true, ["w"]⟩, ⟨true, ["w", "out_glTF"]⟩] }
      "out3.bin" "out3.bin" rfl rfl
  exact ⟨rfl, h.2.1, h.2.2.1, h.2.2.2⟩

/-- Claim C4 counterexample: the empty string is a `--unit-conversion`
value other than the three recognized ones, yet resolving it emits no
warning at all (the `!unitConversion.empty()` guard skips the whole
mapping block): the run succeeds with the default mode and an empty
warning list, refuting the claim that every unrecognized value string
produces a logged warning. -/
theorem C4_counterexample :
    ¬(("" : String) = "geometry-level" ∨ ("" : String) = "hierarchy-level" ∨
      ("" : String) = "disabled") ∧
    (resolveCliArgs { inputFile := "a.fbx", unitConversion := "" }).2 = [] ∧
    ((resolveCliArgs { inputFile := "a.fbx", unitConversion := "" }).1.map
      (fun cli => cli.convertOptions.unitConversion)) =
      some UnitConversion.geometryLevel := by
  exact ⟨by decide, rfl, rfl⟩

/-- Claim C4 (amended): the three value strings `geometry-level`,
`hierarchy-level` and `disabled` map case-sensitively and exactly to
their modes; any other **non-empty** string never causes a parse or
resolution failure — it produces exactly one logged warning and the
mode retains its default (`geometry-level`); the empty string also
never fails, retains the default, but is skipped silently without a
warning. -/
theorem C4_unit_conversion_mapping (p : ParsedOptions) (hin : p.inputFile ≠ "") :
    ∃ cli, (resolveCliArgs p).1 = some cli ∧
      cli.convertOptions.unitConversion =
        (if p.unitConversion = "geometry-level" then UnitConversion.geometryLevel
         else if p.unitConversion = "hierarchy-level" then UnitConversion.hierarchyLevel
         else if p.unitConversion = "disabled" then UnitConversion.disabled
         else UnitConversion.geometryLevel) ∧
      (resolveCliArgs p).2 =
        (if p.unitConversion = "" ∨ p.unitConversion = "geometry-level" ∨
            p.unitConversion = "hierarchy-level" ∨ p.unitConversion = "disabled" then []
         else ["Unknown unit conversion option: " ++ p.unitConversion]) := by
  have hbase := applyToggles_unitConversion p
  simp only [resolveCliArgs, if_neg hin]
  refine ⟨_, rfl, ?_, ?_⟩
  · have hproj : ∀ co : ConvertOptions,
        (finalizeLocations p co).unitConversion = co.unitConversion := by
      intro co
      unfold finalizeLocations
      split <;> rfl
    show (finalizeLocations p (applyUnitConversion p.unitConversion (applyToggles p)).1).unitConversion = _
    rw [hproj]
    unfold applyUnitConversion
    split
    · rename_i h
      simp [h, hbase]
    · split
      · rename_i h
        simp [h]
      · split
        · rename_i h
          simp [h]
        · split
          · rename_i h
            simp [h]
          · rename_i h1 h2 h3 h4
            simp [h1, h2, h3, h4, hbase]
  · unfold applyUnitConversion
    split
    · rename_i h
      simp [h]
    · split
      · rename_i h
        simp [h]
      · split
        · rename_i h
          simp [h]
        · split
          · rename_i h
            simp [h]
          · rename_i h1 h2 h3 h4
            simp [h1, h2, h3, h4]

/-- Claim C4 witness: the case-sensitive miss `Disabled` resolves
successfully, keeps the default `geometry-level` mode and produces
exactly one warning. -/
theorem C4_unit_conversion_mapping_witness :
    (resolveCliArgs { inputFile := "a.fbx", unitConversion := "Disabled" }).1.map
      (fun cli => cli.convertOptions.unitConversion) =
      some UnitConversion.geometryLevel ∧
    (resolveCliArgs { inputFile := "a.fbx", unitConversion := "Disabled" }).2 =
      ["Unknown unit conversion option: Disabled"] := by
  obtain ⟨cli, h1, h2, h3⟩ :=
    C4_unit_conversion_mapping { inputFile := "a.fbx", unitConversion := "Disabled" }
      (by decide)
  rw [h1]
  refine ⟨?_, ?_⟩
  · show some cli.convertOptions.unitConversion = some UnitConversion.geometryLevel
    rw [h2]
    rfl
  · rw [h3]
    rfl

theorem finalizeLocations_locations (p : ParsedOptions) (co : ConvertOptions)
    (h : co.textureResolution.locations = []) :
    (finalizeLocations p co).textureResolution.locations =
      p.textureSearchLocations.map (resolveTextureLocation (parsePath p.inputFile).parent) := by
  unfold finalizeLocations
  split
  · rename_i hE
    rw [List.isEmpty_iff.mp hE, h]
    rfl
  · rfl

theorem resolveTextureLocation_absolute (base : FsPath) (hb : base.absolute = true)
    (s : String) : strAbsolute (resolveTextureLocation base s) = true := by
  by_cases hA : (parsePath s).absolute = true
  · simp only [resolveTextureLocation]
    rw [if_pos hA]
    exact hA
  · simp only [resolveTextureLocation]
    rw [if_neg hA]
    unfold FsPath.join
    rw [if_neg hA, hb]
    exact strAbsolute_render_true _

/-- Claim C5 counterexample: with the relative input file `model.fbx`
and the mixed list `["/textures/abs", "textures"]`, the input file's
parent directory is empty, so the relative entry resolves to the
relative path `textures` — not an absolute path, refuting the claim
that every entry of the resolved list is absolute. -/
theorem C5_counterexample :
    strAbsolute "/textures/abs" = true ∧
    strAbsolute "textures" = false ∧
    ((resolveCliArgs { inputFile := "model.fbx", textureSearchLocations := ["/textures/abs", "textures"] }).1.map
      (fun cli => cli.convertOptions.textureResolution.locations)) =
      some ["/textures/abs", "textures"] := by
  exact ⟨rfl, rfl, rfl⟩

/-- Claim C5 (amended): the resolved texture-search-location list is
the input list mapped in order through the resolver — entries that are
already absolute are used verbatim, relative entries are joined onto
the input file's parent directory — and whenever the input file's path
is absolute, every resolved entry is absolute. -/
theorem C5_texture_search_locations (p : ParsedOptions) (cli : CliArgs)
    (h : (resolveCliArgs p).1 = some cli) :
    cli.convertOptions.textureResolution.locations =
      p.textureSearchLocations.map (resolveTextureLocation (parsePath p.inputFile).parent) ∧
    (∀ s, strAbsolute s = true →
       resolveTextureLocation (parsePath p.inputFile).parent s = s) ∧
    (∀ s, strAbsolute s = false →
       resolveTextureLocation (parsePath p.inputFile).parent s =
         ((parsePath p.inputFile).parent.join (parsePath s)).render) ∧
    (strAbsolute p.inputFile = true →
       ∀ q ∈ cli.convertOptions.textureResolution.locations, strAbsolute q = true) := by
  by_cases hin : p.inputFile = ""
  · rw [resolveCliArgs, if_pos hin] at h
    cases h
  · simp only [resolveCliArgs, if_neg hin, Option.some.injEq] at h
    have hloc : cli.convertOptions.textureResolution.locations =
        p.textureSearchLocations.map (resolveTextureLocation (parsePath p.inputFile).parent) := by
      rw [← h]
      exact finalizeLocations_locations p _
        (by rw [applyUnitConversion_locations, applyToggles_locations])
    refine ⟨hloc, ?_, ?_, ?_⟩
    · intro s hs
      have hA : (parsePath s).absolute = true := hs
      simp only [resolveTextureLocation]
      rw [if_pos hA]
    · intro s hs
      have hA : ¬(parsePath s).absolute = true := by
        have hf : (parsePath s).absolute = false := hs
        simp [hf]
      simp only [resolveTextureLocation]
      rw [if_neg hA]
    · intro habs q hq
      rw [hloc] at hq
      obtain ⟨s, hs, rfl⟩ := List.mem_map.mp hq
      exact resolveTextureLocation_absolute _ habs s

/-- Claim C5 witness: input file `/proj/model.fbx` with the mixed list
`["/abs/t", "rel"]`: the resolved list is `["/abs/t", "/proj/rel"]`
(order preserved, absolute entry verbatim, relative one prefixed with
the input's parent directory), and the resolved relative entry is
absolute. -/
theorem C5_texture_search_locations_witness :
    (["/abs/t", "/proj/rel"] : List String) =
      ["/abs/t", "rel"].map (resolveTextureLocation (parsePath "/proj/model.fbx").parent) ∧
    resolveTextureLocation (parsePath "/proj/model.fbx").parent "/abs/t" = "/abs/t" ∧
    resolveTextureLocation (parsePath "/proj/model.fbx").parent "rel" =
      ((parsePath "/proj/model.fbx").parent.join (parsePath "rel")).render ∧
    strAbsolute "/proj/rel" = true := by
  have h := C5_texture_search_locations
      { inputFile := "/proj/model.fbx", textureSearchLocations := ["/abs/t", "rel"] }
      { inputFile := "/proj/model.fbx",
        convertOptions := { textureResolution := { locations := ["/abs/t", "/proj/rel"] } } }
      rfl
  refine ⟨h.1, h.2.1 "/abs/t" rfl, h.2.2.1 "rel" rfl, ?_⟩
  exact h.2.2.2 rfl "/proj/rel" (by simp)

theorem finalizeLocations_fbmDir (p : ParsedOptions) (co : ConvertOptions) :
    (finalizeLocations p co).fbmDir = co.fbmDir := by
  unfold finalizeLocations
  split <;> rfl

/-- Claim C9: every configuration handed to the converter has data-URI
embedding of buffers disabled and the path mode fixed to `copy`; the
quantification over arbitrary `CliArgs` entering `prepareOptions`
covers every possible command line, so no argument can change these
two fields. -/
theorem C9_converter_forced_fields (fs0 : FileSystem) (cwd : FsPath)
    (cli0 cli : CliArgs) (fs1 : FileSystem)
    (hprep : prepareOptions fs0 cwd cli0 = Except.ok (cli, fs1)) :
    cli.convertOptions.useDataUriForBuffers = false ∧
    cli.convertOptions.pathMode = PathMode.copy := by
  unfold prepareOptions at hprep
  cases hro : resolveOutFile fs0 cwd (applyFbmDir cli0) with
  | error e =>
    rw [hro] at hprep
    cases hprep
  | ok pr =>
    obtain ⟨cli2, fs2⟩ := pr
    rw [hro] at hprep
    simp only [Except.ok.injEq, Prod.mk.injEq] at hprep
    obtain ⟨h1, h2⟩ := hprep
    rw [← h1]
    exact ⟨rfl, rfl⟩

/-- Claim C9 witness: a concrete prepared configuration has
`useDataUriForBuffers = false` and `pathMode = copy`. -/
theorem C9_converter_forced_fields_witness :
    ({ inputFile := "a.fbx", outFile := "/w/a_glTF/a.gltf", logFile := some "log.json",
       convertOptions := { out := "/w/a_glTF/a.gltf", useDataUriForBuffers := false,
                           pathMode := PathMode.copy } } : CliArgs).convertOptions.useDataUriForBuffers
      = false ∧
    ({ inputFile := "a.fbx", outFile := "/w/a_glTF/a.gltf", logFile := some "log.json",
       convertOptions := { out := "/w/a_glTF/a.gltf", useDataUriForBuffers := false,
                           pathMode := PathMode.copy } } : CliArgs).convertOptions.pathMode
      = PathMode.copy := by
  exact C9_converter_forced_fields {} ⟨true, ["w"]⟩
    { inputFile := "a.fbx", logFile := some "log.json" }
    { inputFile := "a.fbx", outFile := "/w/a_glTF/a.gltf", logFile := some "log.json",
      convertOptions := { out := "/w/a_glTF/a.gltf", useDataUriForBuffers := false,
                          pathMode := PathMode.copy } }
    { dirs := [⟨true, []⟩, ⟨true, ["w"]⟩, ⟨true, ["w", "a_glTF"]⟩] } rfl

/-- Claim C10: the `--fbm-dir` step of `main` leaves the whole
configuration unchanged when the value is absent or empty, copies a
non-empty value into the embedded-media directory field, changes no
other field in either case, and the resolver itself never writes that
field, so an absent or empty option leaves it at the converter's
default. -/
theorem C10_fbm_dir_override (c : CliArgs) :
    (c.fbmDir = "" → applyFbmDir c = c) ∧
    (c.fbmDir ≠ "" → (applyFbmDir c).convertOptions.fbmDir = c.fbmDir) ∧
    (applyFbmDir c).inputFile = c.inputFile ∧
    (applyFbmDir c).outFile = c.outFile ∧
    (applyFbmDir c).fbmDir = c.fbmDir ∧
    (applyFbmDir c).logFile = c.logFile ∧
    (applyFbmDir c).convertOptions.out = c.convertOptions.out ∧
    (applyFbmDir c).convertOptions.noFlipV = c.convertOptions.noFlipV ∧
    (applyFbmDir c).convertOptions.animationBakeRate = c.convertOptions.animationBakeRate ∧
    (applyFbmDir c).convertOptions.unitConversion = c.convertOptions.unitConversion ∧
    (applyFbmDir c).convertOptions.textureResolution = c.convertOptions.textureResolution ∧
    (applyFbmDir c).convertOptions.prefer_local_time_span = c.convertOptions.prefer_local_time_span ∧
    (applyFbmDir c).convertOptions.verbose = c.convertOptions.verbose ∧
    (applyFbmDir c).convertOptions.useDataUriForBuffers = c.convertOptions.useDataUriForBuffers ∧
    (applyFbmDir c).convertOptions.pathMode = c.convertOptions.pathMode ∧
    (∀ p cli warns, resolveCliArgs p = (some cli, warns) →
       cli.convertOptions.fbmDir = ({} : ConvertOptions).fbmDir) := by
  refine ⟨fun h0 => by unfold applyFbmDir; rw [if_pos h0],
          fun h0 => by unfold applyFbmDir; rw [if_neg h0],
          ?_, ?_, ?_, ?_, ?_, ?_, ?_, ?_, ?_, ?_, ?_, ?_, ?_, ?_⟩
  all_goals try (unfold applyFbmDir; split <;> rfl)
  intro p cli warns hres
  by_cases hin : p.inputFile = ""
  · rw [resolveCliArgs, if_pos hin] at hres
    simp at hres
  · simp only [resolveCliArgs, if_neg hin, Prod.mk.injEq, Option.some.injEq] at hres
    obtain ⟨h1, h2⟩ := hres
    rw [← h1]
    show (finalizeLocations p _).fbmDir = ""
    rw [finalizeLocations_fbmDir, applyUnitConversion_fbmDir, applyToggles_fbmDir]

/-- Claim C10 witness: with `--fbm-dir media` the override copies the
value and leaves every other field alone; with it absent the step is
the identity. -/
theorem C10_fbm_dir_override_witness :
    (applyFbmDir { fbmDir := "media" }).convertOptions.fbmDir = "media" ∧
    (applyFbmDir { fbmDir := "media" }).inputFile = ({ fbmDir := "media" } : CliArgs).inputFile ∧
    (applyFbmDir { fbmDir := "media" }).convertOptions.pathMode =
      ({ fbmDir := "media" } : CliArgs).convertOptions.pathMode ∧
    applyFbmDir {} = ({} : CliArgs) := by
  have h1 := C10_fbm_dir_override { fbmDir := "media" }
  have h2 := C10_fbm_dir_override {}
  exact ⟨h1.2.1 (by decide), h1.2.2.1, h1.2.2.2.2.2.2.2.2.2.2.2.2.2.2.1, h2.1 rfl⟩

/-- Claim C6: in every run that reaches logger construction, the sink
actually used is a pure function of the resolved log-file field — the
buffered/structured JSON kind exactly when a log file path is set, the
console kind otherwise. -/
theorem C6_sink_selection (p : ParsedOptions) (fs0 : FileSystem) (cwd : FsPath)
    (conv : ConvertOutcome) (dw lw : Bool) (cli0 cli : CliArgs) (warns : List String)
    (fs1 : FileSystem)
    (hres : resolveCliArgs p = (some cli0, warns))
    (hprep : prepareOptions fs0 cwd cli0 = Except.ok (cli, fs1)) :
    (mainRun true (some p) fs0 cwd conv dw lw).sinkUsed = some (selectSink cli.logFile) ∧
    (∀ lf, selectSink (some lf) = SinkKind.json) ∧
    selectSink none = SinkKind.console := by
  refine ⟨?_, fun lf => rfl, rfl⟩
  simp only [mainRun, hres, hprep, if_true]
  cases hl : cli.logFile with
  | none => rfl
  | some lf =>
    simp only [persistLog]
    cases hcd : createDirectories fs1 (parsePath lf).parent with
    | error e => rfl
    | ok fs2 => cases lw <;> rfl

/-! ### Lemmas about the orchestration stages -/

theorem convertStep_error (conv : ConvertOutcome) (dw : Bool) (msg : String)
    (h : conv.result = Except.error msg) :
    convertStep conv dw = (conv.logs ++ [(Level.fatal, msg)], 1, false) := by
  unfold convertStep
  rw [h]

theorem convertStep_ok_write (conv : ConvertOutcome) (h : conv.result = Except.ok ()) :
    convertStep conv true = (conv.logs, 0, true) := by
  unfold convertStep
  rw [h]
  rfl

theorem convertStep_ok_nowrite (conv : ConvertOutcome) (h : conv.result = Except.ok ()) :
    convertStep conv false = (conv.logs ++ [(Level.fatal, ioFailureMessage)], 1, false) := by
  unfold convertStep
  rw [h]
  rfl

theorem persistLog_some_ok (lf : String) (sink : SinkKind) (fs1 : FileSystem)
    (warns : List String) (st : List (Level × String) × Int × Bool)
    (hdir : fs1.createFails (parsePath lf).parent = false) :
    persistLog (some lf) sink fs1 warns st true =
      ⟨Except.ok st.2.1, st.2.2, some sink, st.1, some st.1, warns,
       { fs1 with dirs := fs1.dirs ++ (parsePath lf).parent.ancestors }⟩ := by
  simp only [persistLog, createDirectories]
  rw [hdir]
  rfl

theorem persistLog_some_fail (lf : String) (sink : SinkKind) (fs1 : FileSystem)
    (warns : List String) (st : List (Level × String) × Int × Bool)
    (hdir : fs1.createFails (parsePath lf).parent = false) :
    persistLog (some lf) sink fs1 warns st false =
      ⟨Except.ok 1, st.2.2, some sink, st.1, none, warns ++ [ioFailureMessage],
       { fs1 with dirs := fs1.dirs ++ (parsePath lf).parent.ancestors }⟩ := by
  simp only [persistLog, createDirectories]
  rw [hdir]
  rfl

theorem persistLog_some_direrr (lf : String) (sink : SinkKind) (fs1 : FileSystem)
    (warns : List String) (st : List (Level × String) × Int × Bool) (lw : Bool)
    (hdir : fs1.createFails (parsePath lf).parent = true) :
    persistLog (some lf) sink fs1 warns st lw =
      ⟨Except.ok 1, st.2.2, some sink, st.1, none, warns ++ [ioFailureMessage], fs1⟩ := by
  simp only [persistLog, createDirectories]
  rw [hdir]
  rfl

theorem persistLog_exit (logFile : Option String) (sink : SinkKind) (fs1 : FileSystem)
    (warns : List String) (st : List (Level × String) × Int × Bool) (lw : Bool) :
    (persistLog logFile sink fs1 warns st lw).exit =
      Except.ok (if persistFail logFile fs1 lw then 1 else st.2.1) := by
  cases logFile with
  | none => rfl
  | some lf =>
    simp only [persistLog, persistFail, createDirectories]
    rcases Bool.dichotomy (fs1.createFails (parsePath lf).parent) with hcf | hcf <;>
      cases lw <;> simp [hcf]

theorem mainRun_reached (p : ParsedOptions) (fs0 : FileSystem) (cwd : FsPath)
    (conv : ConvertOutcome) (dw lw : Bool) (cli0 cli : CliArgs) (warns : List String)
    (fs1 : FileSystem)
    (hres : resolveCliArgs p = (some cli0, warns))
    (hprep : prepareOptions fs0 cwd cli0 = Except.ok (cli, fs1)) :
    mainRun true (some p) fs0 cwd conv dw lw =
      persistLog cli.logFile (selectSink cli.logFile) fs1 warns (convertStep conv dw) lw := by
  simp only [mainRun, hres, hprep, if_true]

/-- Claim C6 witness: a run whose resolved options carry the log file
`log.json` uses the JSON sink; without a log file the console sink is
selected. -/
theorem C6_sink_selection_witness :
    (mainRun true (some { inputFile := "a.fbx", logFile := "log.json" }) {} ⟨true, ["w"]⟩
        {} true true).sinkUsed = some (selectSink (some "log.json")) ∧
    selectSink (some "x") = SinkKind.json ∧
    selectSink none = SinkKind.console := by
  have h := C6_sink_selection { inputFile := "a.fbx", logFile := "log.json" } {} ⟨true, ["w"]⟩
      {} true true { inputFile := "a.fbx", logFile := some "log.json" }
      { inputFile := "a.fbx", outFile := "/w/a_glTF/a.gltf", logFile := some "log.json",
        convertOptions := { out := "/w/a_glTF/a.gltf", useDataUriForBuffers := false,
                            pathMode := PathMode.copy } }
      [] { dirs := [⟨true, []⟩, ⟨true, ["w"]⟩, ⟨true, ["w", "a_glTF"]⟩] } rfl rfl
  exact ⟨h.1, h.2.1 "x", h.2.2⟩

/-- Claim C1: when the converter throws, the exit code is 1, no output
document is written, the run still persists the log, and the persisted
log carries exactly one fatal-level record holding the converter's
error message (the converter itself, living outside the visible
sources, is modelled as emitting no fatal records of its own). -/
theorem C1_convert_failure_captured (p : ParsedOptions) (fs0 : FileSystem) (cwd : FsPath)
    (conv : ConvertOutcome) (dw : Bool) (cli0 cli : CliArgs) (warns : List String)
    (fs1 : FileSystem) (msg lf : String)
    (hres : resolveCliArgs p = (some cli0, warns))
    (hprep : prepareOptions fs0 cwd cli0 = Except.ok (cli, fs1))
    (hconv : conv.result = Except.error msg)
    (hnofatal : ∀ m, (Level.fatal, m) ∉ conv.logs)
    (hlog : cli.logFile = some lf)
    (hdir : fs1.createFails (parsePath lf).parent = false) :
    (mainRun true (some p) fs0 cwd conv dw true).exit = Except.ok 1 ∧
    (mainRun true (some p) fs0 cwd conv dw true).docWritten = false ∧
    (mainRun true (some p) fs0 cwd conv dw true).logPersisted =
      some (conv.logs ++ [(Level.fatal, msg)]) ∧
    (conv.logs ++ [(Level.fatal, msg)]).filter (fun e => decide (e.1 = Level.fatal)) =
      [(Level.fatal, msg)] := by
  rw [mainRun_reached p fs0 cwd conv dw true cli0 cli warns fs1 hres hprep, hlog,
    convertStep_error conv dw msg hconv,
    persistLog_some_ok lf (selectSink (some lf)) fs1 warns
      (conv.logs ++ [(Level.fatal, msg)], 1, false) hdir]
  refine ⟨rfl, rfl, rfl, ?_⟩
  rw [List.filter_append]
  have h1 : conv.logs.filter (fun e => decide (e.1 = Level.fatal)) = [] :=
    List.filter_eq_nil_iff.mpr (fun a ha hdec => hnofatal a.2 (by
      have h2 : a = (Level.fatal, a.2) := by
        have h3 : a.1 = Level.fatal := of_decide_eq_true hdec
        rw [← h3]
      rw [← h2]
      exact ha))
  rw [h1]
  rfl

/-- Claim C1 witness: a converter failure `boom` under a requested log
file gives exit code 1, no document, and the log persisted with the
single fatal record. -/
theorem C1_convert_failure_captured_witness :
    (mainRun true (some { inputFile := "a.fbx", logFile := "log.json" }) {} ⟨true, ["w"]⟩
        { logs := [], result := Except.error "boom" } true true).exit = Except.ok 1 ∧
    (mainRun true (some { inputFile := "a.fbx", logFile := "log.json" }) {} ⟨true, ["w"]⟩
        { logs := [], result := Except.error "boom" } true true).docWritten = false ∧
    (mainRun true (some { inputFile := "a.fbx", logFile := "log.json" }) {} ⟨true, ["w"]⟩
        { logs := [], result := Except.error "boom" } true true).logPersisted =
      some [(Level.fatal, "boom")] ∧
    ([(Level.fatal, "boom")] : List (Level × String)).filter
      (fun e => decide (e.1 = Level.fatal)) = [(Level.fatal, "boom")] :=
  C1_convert_failure_captured { inputFile := "a.fbx", logFile := "log.json" } {} ⟨true, ["w"]⟩
    { logs := [], result := Except.error "boom" } true
    { inputFile := "a.fbx", logFile := some "log.json" }
    { inputFile := "a.fbx", outFile := "/w/a_glTF/a.gltf", logFile := some "log.json",
      convertOptions := { out := "/w/a_glTF/a.gltf", useDataUriForBuffers := false,
                          pathMode := PathMode.copy } }
    [] { dirs := [⟨true, []⟩, ⟨true, ["w"]⟩, ⟨true, ["w", "a_glTF"]⟩] } "boom" "log.json"
    rfl rfl rfl (fun _ => List.not_mem_nil _) rfl rfl

/-- Claim C7: the exit code is 0 exactly on full success and 1 exactly
when a captured failure occurred (converter threw, document stream
failed, or log persistence failed); argument-normalization failure, a
parse failure or help request, and a missing input file all exit with
the usage-error code -1 — non-zero and distinct from 1 — and in those
cases no document is written and no log file is produced. -/
theorem C7_exit_code_policy (parsed : Option ParsedOptions) (p : ParsedOptions)
    (fs0 : FileSystem) (cwd : FsPath) (conv : ConvertOutcome) (dw lw : Bool)
    (errs warns : List String) (cli0 cli : CliArgs) (fs1 : FileSystem) :
    ((mainRun false parsed fs0 cwd conv dw lw).exit = Except.ok (-1) ∧
     (mainRun false parsed fs0 cwd conv dw lw).docWritten = false ∧
     (mainRun false parsed fs0 cwd conv dw lw).logPersisted = none) ∧
    ((mainRun true none fs0 cwd conv dw lw).exit = Except.ok (-1) ∧
     (mainRun true none fs0 cwd conv dw lw).docWritten = false ∧
     (mainRun true none fs0 cwd conv dw lw).logPersisted = none) ∧
    (resolveCliArgs p = (none, errs) →
      (mainRun true (some p) fs0 cwd conv dw lw).exit = Except.ok (-1) ∧
      (mainRun true (some p) fs0 cwd conv dw lw).docWritten = false ∧
      (mainRun true (some p) fs0 cwd conv dw lw).logPersisted = none) ∧
    (resolveCliArgs p = (some cli0, warns) →
      prepareOptions fs0 cwd cli0 = Except.ok (cli, fs1) →
      (mainRun true (some p) fs0 cwd conv dw lw).exit =
        Except.ok (if isErr conv.result || !dw || persistFail cli.logFile fs1 lw
                   then 1 else 0)) ∧
    ((-1 : Int) ≠ 0 ∧ (-1 : Int) ≠ 1) := by
  refine ⟨⟨rfl, rfl, rfl⟩, ⟨rfl, rfl, rfl⟩, ?_, ?_, by decide⟩
  · intro hres
    have h : mainRun true (some p) fs0 cwd conv dw lw = usageExit errs fs0 := by
      simp only [mainRun, hres, if_true]
    rw [h]
    exact ⟨rfl, rfl, rfl⟩
  · intro hres hprep
    rw [mainRun_reached p fs0 cwd conv dw lw cli0 cli warns fs1 hres hprep, persistLog_exit]
    cases hc : conv.result with
    | error msg =>
      rw [convertStep_error conv dw msg hc]
      simp [isErr]
    | ok u =>
      cases u
      cases dw with
      | true =>
        rw [convertStep_ok_write conv hc]
        simp [isErr]
      | false =>
        rw [convertStep_ok_nowrite conv hc]
        simp [isErr]

/-- Claim C7 witness: normalization failure, parse failure and missing
input file all exit -1; a converter failure exits 1; a clean run exits
0; and -1 is distinct from both. -/
theorem C7_exit_code_policy_witness :
    (mainRun false none {} ⟨true, ["w"]⟩ {} true true).exit = Except.ok (-1) ∧
    (mainRun true none {} ⟨true, ["w"]⟩ {} true true).exit = Except.ok (-1) ∧
    (mainRun true (some {}) {} ⟨true, ["w"]⟩ {} true true).exit = Except.ok (-1) ∧
    (mainRun true (some {}) {} ⟨true, ["w"]⟩ {} true true).docWritten = false ∧
    (mainRun true (some {}) {} ⟨true, ["w"]⟩ {} true true).logPersisted = none ∧
    (mainRun true (some { inputFile := "a.fbx" }) {} ⟨true, ["w"]⟩
        { logs := [], result := Except.error "boom" } true true).exit = Except.ok 1 ∧
    (mainRun true (some { inputFile := "a.fbx" }) {} ⟨true, ["w"]⟩ {} true true).exit =
      Except.ok 0 ∧
    ((-1 : Int) ≠ 0 ∧ (-1 : Int) ≠ 1) := by
  have hA := C7_exit_code_policy none ({} : ParsedOptions) {} ⟨true, ["w"]⟩ {} true true
      ["Input file not specified."] [] {} {} {}
  have hB := C7_exit_code_policy none { inputFile := "a.fbx" } {} ⟨true, ["w"]⟩
      { logs := [], result := Except.error "boom" } true true []
      [] { inputFile := "a.fbx" }
      { inputFile := "a.fbx", outFile := "/w/a_glTF/a.gltf",
        convertOptions := { out := "/w/a_glTF/a.gltf", useDataUriForBuffers := false,
                            pathMode := PathMode.copy } }
      { dirs := [⟨true, []⟩, ⟨true, ["w"]⟩, ⟨true, ["w", "a_glTF"]⟩] }
  have hC := C7_exit_code_policy none { inputFile := "a.fbx" } {} ⟨true, ["w"]⟩ {} true true []
      [] { inputFile := "a.fbx" }
      { inputFile := "a.fbx", outFile := "/w/a_glTF/a.gltf",
        convertOptions := { out := "/w/a_glTF/a.gltf", useDataUriForBuffers := false,
                            pathMode := PathMode.copy } }
      { dirs := [⟨true, []⟩, ⟨true, ["w"]⟩, ⟨true, ["w", "a_glTF"]⟩] }
  obtain ⟨e1, e2, e3⟩ := hA.2.2.1 rfl
  exact ⟨hA.1.1, hA.2.1.1, e1, e2, e3, hB.2.2.2.1 rfl rfl, hC.2.2.2.1 rfl rfl,
    hA.2.2.2.2⟩

/-- Claim C8: when a log file was requested and its parent directories
can be created, a successful persist stores the entire ordered
in-memory log and leaves the created parent directories in the
filesystem; a failing persist stores nothing, reports the failure on
the error stream (never through the logger — the buffered records are
unchanged), escalates the exit code to 1, and leaves the document
outcome exactly as in the successful-persist run. -/
theorem C8_log_persistence (p : ParsedOptions) (fs0 : FileSystem) (cwd : FsPath)
    (conv : ConvertOutcome) (dw : Bool) (cli0 cli : CliArgs) (warns : List String)
    (fs1 : FileSystem) (lf : String)
    (hres : resolveCliArgs p = (some cli0, warns))
    (hprep : prepareOptions fs0 cwd cli0 = Except.ok (cli, fs1))
    (hlog : cli.logFile = some lf)
    (hdir : fs1.createFails (parsePath lf).parent = false) :
    (mainRun true (some p) fs0 cwd conv dw true).logPersisted =
      some (mainRun true (some p) fs0 cwd conv dw true).loggerRecords ∧
    (∀ q ∈ (parsePath lf).parent.ancestors,
       q ∈ (mainRun true (some p) fs0 cwd conv dw true).fs.dirs) ∧
    (mainRun true (some p) fs0 cwd conv dw false).logPersisted = none ∧
    (mainRun true (some p) fs0 cwd conv dw false).exit = Except.ok 1 ∧
    ioFailureMessage ∈ (mainRun true (some p) fs0 cwd conv dw false).stderrOut ∧
    (mainRun true (some p) fs0 cwd conv dw false).loggerRecords =
      (mainRun true (some p) fs0 cwd conv dw true).loggerRecords ∧
    (mainRun true (some p) fs0 cwd conv dw false).docWritten =
      (mainRun true (some p) fs0 cwd conv dw true).docWritten := by
  rw [mainRun_reached p fs0 cwd conv dw true cli0 cli warns fs1 hres hprep,
    mainRun_reached p fs0 cwd conv dw false cli0 cli warns fs1 hres hprep, hlog,
    persistLog_some_ok lf (selectSink (some lf)) fs1 warns (convertStep conv dw) hdir,
    persistLog_some_fail lf (selectSink (some lf)) fs1 warns (convertStep conv dw) hdir]
  refine ⟨rfl, ?_, rfl, rfl, ?_, rfl, rfl⟩
  · intro q hq
    exact List.mem_append_right _ hq
  · exact List.mem_append_right _ (List.mem_singleton.mpr rfl)

/-- Claim C8 witness: with log file `logs/log.json`, a successful run
persists the log and has created `logs`; the run with a failing log
stream persists nothing, exits 1, reports on the error stream and
keeps the same records and document outcome. -/
theorem C8_log_persistence_witness :
    (mainRun true (some { inputFile := "a.fbx", logFile := "logs/log.json" }) {} ⟨true, ["w"]⟩
        {} true true).logPersisted =
      some (mainRun true (some { inputFile := "a.fbx", logFile := "logs/log.json" }) {}
        ⟨true, ["w"]⟩ {} true true).loggerRecords ∧
    (⟨false, ["logs"]⟩ : FsPath) ∈
      (mainRun true (some { inputFile := "a.fbx", logFile := "logs/log.json" }) {} ⟨true, ["w"]⟩
        {} true true).fs.dirs ∧
    (mainRun true (some { inputFile := "a.fbx", logFile := "logs/log.json" }) {} ⟨true, ["w"]⟩
        {} true false).logPersisted = none ∧
    (mainRun true (some { inputFile := "a.fbx", logFile := "logs/log.json" }) {} ⟨true, ["w"]⟩
        {} true false).exit = Except.ok 1 ∧
    ioFailureMessage ∈
      (mainRun true (some { inputFile := "a.fbx", logFile := "logs/log.json" }) {} ⟨true, ["w"]⟩
        {} true false).stderrOut ∧
    (mainRun true (some { inputFile := "a.fbx", logFile := "logs/log.json" }) {} ⟨true, ["w"]⟩
        {} true false).docWritten =
      (mainRun true (some { inputFile := "a.fbx", logFile := "logs/log.json" }) {} ⟨true, ["w"]⟩
        {} true true).docWritten := by
  have h := C8_log_persistence { inputFile := "a.fbx", logFile := "logs/log.json" } {}
      ⟨true, ["w"]⟩ {} true { inputFile := "a.fbx", logFile := some "logs/log.json" }
      { inputFile := "a.fbx", outFile := "/w/a_glTF/a.gltf", logFile := some "logs/log.json",
        convertOptions := { out := "/w/a_glTF/a.gltf", useDataUriForBuffers := false,
                            pathMode := PathMode.copy } }
      [] { dirs := [⟨true, []⟩, ⟨true, ["w"]⟩, ⟨true, ["w", "a_glTF"]⟩] } "logs/log.json"
      rfl rfl rfl rfl
  exact ⟨h.1, h.2.1 ⟨false, ["logs"]⟩ (by decide), h.2.2.1, h.2.2.2.1, h.2.2.2.2.1,
    h.2.2.2.2.2.2⟩
